import Mathlib

/-!
Verification of the NotarIA frontend chat-session lifecycle
(`ChatService` in the Angular service file, and the pieces of
`ChatComponent` that drive it).

The service wraps the browser-provided `LanguageModel` API.  We embed it
shallowly: the browser is an environment (`Env`) deciding the outcome of
`LanguageModel.create`, `session.clone()`, `session.prompt(...)` and the
availability probe; the service state is the optional `currentSession`
field; every operation returns the new state together with a log of the
external calls it made (`Event`) and its result or thrown error
(`Except String`, errors being the JS error messages).  Numeric token
accounting uses exact rationals in place of JS floating point.
-/

namespace NotarIA

/-- A Chrome AI session handle: an identity plus the token accounting
fields `inputUsage` and `inputQuota` read by `ensureSession`. -/
structure Session where
  sid : Nat
  inputUsage : Nat
  inputQuota : Nat
deriving DecidableEq, Repr

/-- The options object passed to `LanguageModel.create`. -/
structure CreateOpts where
  temperature : ℚ
  topK : Nat
  systemPrompt : String
deriving DecidableEq, Repr

/-- The fixed system prompt of the service (the `initialPrompts` content). -/
def chatSystemPrompt : String :=
  "Eres un asistente legal especializado en servicios notariales de México.\nTu objetivo es proporcionar información clara y precisa sobre trámites notariales,\ncontratos, escrituras, testamentos, poderes notariales y actas constitutivas.\nResponde siempre en español de manera profesional pero accesible.\nSi no estás seguro de algo, recomienda consultar con un notario profesional."

/-- The fixed configuration `ensureSession` passes to `LanguageModel.create`:
temperature 0.8, topK 3 and the fixed system prompt. -/
def chatCreateOpts : CreateOpts :=
  { temperature := 0.8, topK := 3, systemPrompt := chatSystemPrompt }

/-- External calls the service makes on the browser API.
`createRequested` is logged whenever `LanguageModel.create` is invoked
(whether or not it succeeds); `created` on its success; `cloned old new`
when `old.clone()` returns `new`; `destroyed s` when `s.destroy()` runs;
`prompted s msg` when `s.prompt(msg)` is invoked. -/
inductive Event where
  | createRequested (opts : CreateOpts)
  | created (s : Session)
  | cloned (old new : Session)
  | destroyed (s : Session)
  | prompted (s : Session) (msg : String)
deriving DecidableEq, Repr

/-- The browser environment: whether the global `LanguageModel` exists,
the string returned by `LanguageModel.availability()`, and the outcomes
of `create`, `clone` and `prompt` (`Except.error` models a rejected
promise carrying the error message). -/
structure Env where
  available : Bool
  availabilityStatus : String
  createResult : CreateOpts → Except String Session
  cloneResult : Session → Except String Session
  promptResult : Session → String → Except String String

/-- The mutable state of `ChatService`: its `currentSession` field. -/
structure ChatState where
  currentSession : Option Session
deriving DecidableEq, Repr

/-- Outcome of one service operation: the state it leaves behind, the
external calls it made in order, and its returned value or thrown error. -/
structure StepResult (α : Type) where
  state : ChatState
  events : List Event
  result : Except String α
deriving Repr

/-- The `usagePercent` computed by `ensureSession`:
`(inputUsage / inputQuota) * 100`, in exact rationals. -/
def usagePercent (s : Session) : ℚ :=
  ((s.inputUsage : ℚ) / (s.inputQuota : ℚ)) * 100

/-- The token-monitoring tail of `ensureSession`, run on the current
session `s`: if `usagePercent ≥ 90`, refresh by `clone()` and destroy the
old session; otherwise keep `s`.  A throwing `clone()` leaves
`currentSession` pointing at the old session (the assignment never ran)
and no `destroy()` happens. -/
def checkQuota (env : Env) (s : Session) : StepResult Session :=
  if 90 ≤ usagePercent s then
    match env.cloneResult s with
    | .error e =>
        { state := { currentSession := some s }, events := [], result := .error e }
    | .ok s2 =>
        { state := { currentSession := some s2 }
          events := [Event.cloned s s2, Event.destroyed s]
          result := .ok s2 }
  else
    { state := { currentSession := some s }, events := [], result := .ok s }

/-- `ChatService.ensureSession`: create a session with the fixed options
when none exists (a throwing `create` leaves the field unset and
propagates), then run the quota check on the current session. -/
def ensureSession (env : Env) (st : ChatState) : StepResult Session :=
  match st.currentSession with
  | none =>
      match env.createResult chatCreateOpts with
      | .error e =>
          { state := { currentSession := none }
            events := [Event.createRequested chatCreateOpts]
            result := .error e }
      | .ok s =>
          let r := checkQuota env s
          { state := r.state
            events := Event.createRequested chatCreateOpts :: Event.created s :: r.events
            result := r.result }
  | some s => checkQuota env s

/-- `ChatService.destroySession`: when a session is held, call its
`destroy()` and clear the field; otherwise do nothing. -/
def destroySession (st : ChatState) : ChatState × List Event :=
  match st.currentSession with
  | some s => ({ currentSession := none }, [Event.destroyed s])
  | none => (st, [])

/-- The error thrown when the global `LanguageModel` is undefined. -/
def notAvailableMsg : String :=
  "Chrome AI Prompt API not available. Please use Chrome Canary with flags enabled."

/-- `ChatService.getChromeAiResponse`: check availability, ensure a
session, send the user message through `session.prompt`; on success
return the response untouched and keep the session; on any error in the
`try` block, run `destroySession()` and re-throw the error. -/
def getChromeAiResponse (env : Env) (st : ChatState) (userMessage : String) :
    StepResult String :=
  if env.available then
    let r := ensureSession env st
    match r.result with
    | .error e =>
        let d := destroySession r.state
        { state := d.1, events := r.events ++ d.2, result := .error e }
    | .ok session =>
        match env.promptResult session userMessage with
        | .error e =>
            let d := destroySession r.state
            { state := d.1
              events := r.events ++ [Event.prompted session userMessage] ++ d.2
              result := .error e }
        | .ok response =>
            { state := r.state
              events := r.events ++ [Event.prompted session userMessage]
              result := .ok response }
  else
    let d := destroySession st
    { state := d.1, events := d.2, result := .error notAvailableMsg }

/-- `ChatService.warmupSession`: run `ensureSession` and swallow any
error (the catch block only logs), always returning normally. -/
def warmupSession (env : Env) (st : ChatState) : StepResult Unit :=
  let r := ensureSession env st
  { state := r.state, events := r.events, result := .ok () }

/-- Result shape of `ChatService.checkChromeAiAvailability`. -/
structure AvailabilityResult where
  available : Bool
  status : String
  canDownload : Bool
deriving DecidableEq, Repr

/-- `ChatService.checkChromeAiAvailability`: classify
`LanguageModel.availability()` into ready / downloadable / unavailable. -/
def checkChromeAiAvailability (env : Env) : AvailabilityResult :=
  if env.available then
    if env.availabilityStatus = "available" then
      { available := true, status := "Chrome AI está listo para usar", canDownload := false }
    else if env.availabilityStatus = "downloadable" ∨ env.availabilityStatus = "downloading" then
      { available := false
        status := "El modelo necesita descargarse. Intenta crear una sesión para iniciar la descarga."
        canDownload := true }
    else
      { available := false
        status := "Chrome AI no está disponible"
        canDownload := false }
  else
    { available := false
      status := "LanguageModel no encontrado. Usa Chrome Canary con flags habilitadas."
      canDownload := false }

/-- The slice of `ChatComponent` state the session claims touch: the
`chromeAiAvailable` and `errorMessage` signals plus the injected
service's state. -/
structure CompState where
  chromeAiAvailable : Bool
  errorMessage : String
  svc : ChatState
deriving Repr

/-- Service methods the component invokes, for order-of-call reasoning. -/
inductive SvcCall where
  | checkAvailability
  | warmup
  | destroy
deriving DecidableEq, Repr

/-- JS `String.prototype.trim`: drop whitespace from both ends of the
string (structural translation over the character list). -/
def trimString (s : String) : String :=
  ⟨((s.data.dropWhile Char.isWhitespace).reverse.dropWhile Char.isWhitespace).reverse⟩

/-- The `canSendMessage` computed signal of `ChatComponent`:
nonempty trimmed input, not currently sending, and Chrome AI available. -/
def canSendMessage (c : CompState) (userInput : String) (sending : Bool) : Bool :=
  decide (0 < (trimString userInput).length) && !sending && c.chromeAiAvailable

/-- The Chrome-AI part of `ChatComponent.ngOnInit`: basic availability
check, then the async availability probe; when the probe reports
available, warm the session up; otherwise record an error message and
leave `chromeAiAvailable` false.  Returns the new component state and
the service calls made, in order. -/
def ngOnInit (env : Env) (c0 : CompState) : CompState × List SvcCall :=
  let basic := env.available
  let c1 : CompState := { c0 with chromeAiAvailable := basic }
  if basic then
    let avail := checkChromeAiAvailability env
    if avail.available then
      let w := warmupSession env c1.svc
      ({ c1 with chromeAiAvailable := true, errorMessage := "", svc := w.state },
       [SvcCall.checkAvailability, SvcCall.warmup])
    else if avail.canDownload then
      ({ c1 with chromeAiAvailable := false
                 errorMessage := "Chrome AI necesita descargar el modelo. Por favor, espera unos minutos e intenta enviar un mensaje para iniciar la descarga." },
       [SvcCall.checkAvailability])
    else
      ({ c1 with chromeAiAvailable := false, errorMessage := avail.status },
       [SvcCall.checkAvailability])
  else
    ({ c1 with chromeAiAvailable := false
               errorMessage := "La API de Chrome AI no está disponible en este navegador." },
     [])

/-- `ChatComponent.ngOnDestroy` (the service part): destroy the session. -/
def ngOnDestroy (c : CompState) : CompState × List SvcCall × List Event :=
  let d := destroySession c.svc
  ({ c with svc := d.1 }, [SvcCall.destroy], d.2)

/-- Whether an event is an invocation of `LanguageModel.create`. -/
def Event.isCreateRequested : Event → Bool
  | .createRequested _ => true
  | _ => false

/-- Number of `LanguageModel.create` invocations in an event log. -/
def countCreateRequested (evs : List Event) : Nat :=
  evs.countP Event.isCreateRequested

/-! Concrete browser environments and states used to instantiate the
theorems below on explicit inputs. -/

/-- A freshly created session, 10 of 1000 input tokens used (1%). -/
def sessOk : Session := { sid := 0, inputUsage := 10, inputQuota := 1000 }

/-- A session at 90 of 100 input tokens: exactly 90% of its quota,
but strictly below the quota maximum. -/
def cexSession : Session := { sid := 0, inputUsage := 90, inputQuota := 100 }

/-- The fresh session a clone of `cexSession` yields. -/
def cexClone : Session := { sid := 1, inputUsage := 0, inputQuota := 100 }

/-- A healthy browser: creation yields `sessOk`, cloning and prompting
succeed. -/
def envOk : Env :=
  { available := true
    availabilityStatus := "available"
    createResult := fun _ => .ok sessOk
    cloneResult := fun s => .ok { sid := s.sid + 1, inputUsage := 0, inputQuota := s.inputQuota }
    promptResult := fun _ m => .ok ("eco " ++ m) }

/-- A browser whose cloning of the nearly-exhausted `cexSession` yields
`cexClone`. -/
def cexEnv : Env :=
  { available := true
    availabilityStatus := "available"
    createResult := fun _ => .ok cexSession
    cloneResult := fun _ => .ok cexClone
    promptResult := fun _ m => .ok m }

/-- A browser where session creation succeeds but prompting rejects. -/
def envPromptFail : Env :=
  { available := true
    availabilityStatus := "available"
    createResult := fun _ => .ok sessOk
    cloneResult := fun s => .ok s
    promptResult := fun _ _ => .error "prompt exploded" }

/-- A browser where `LanguageModel.create` rejects. -/
def envCreateFail : Env :=
  { available := true
    availabilityStatus := "available"
    createResult := fun _ => .error "create failed"
    cloneResult := fun s => .ok s
    promptResult := fun _ _ => .error "no session" }

/-- A freshly constructed `ChatComponent` before `ngOnInit`. -/
def compInit : CompState :=
  { chromeAiAvailable := false, errorMessage := "", svc := { currentSession := none } }

/-! Helper lemmas shared by the claim theorems. -/

/-- The 90%-of-quota test of the source equals the consumed-ratio test
of the specification. -/
theorem le_usagePercent_iff (s : Session) :
    90 ≤ usagePercent s ↔ (9 : ℚ) / 10 ≤ (s.inputUsage : ℚ) / (s.inputQuota : ℚ) := by
  unfold usagePercent
  constructor <;> intro h <;> linarith

/-- The quota check never invokes `LanguageModel.create`. -/
theorem countCreateRequested_checkQuota (env : Env) (s : Session) :
    countCreateRequested (checkQuota env s).events = 0 := by
  unfold checkQuota
  by_cases h : 90 ≤ usagePercent s
  · cases hc : env.cloneResult s with
    | error e => simp [h, hc, countCreateRequested]
    | ok s2 => simp [h, hc, countCreateRequested, Event.isCreateRequested]
  · simp [h, countCreateRequested]

/-- When the quota check returns a session, that session is the one
stored in `currentSession`. -/
theorem checkQuota_ok_state (env : Env) (s s2 : Session)
    (h : (checkQuota env s).result = .ok s2) :
    (checkQuota env s).state.currentSession = some s2 := by
  by_cases hp : 90 ≤ usagePercent s
  · cases hc : env.cloneResult s with
    | error e => simp [checkQuota, hp, hc] at h
    | ok s3 =>
        simp [checkQuota, hp, hc] at h ⊢
        exact h
  · simp [checkQuota, hp] at h ⊢
    exact h

/-- When `ensureSession` returns a session, that session is the one
stored in `currentSession`. -/
theorem ensureSession_ok_state (env : Env) (st : ChatState) (s : Session)
    (h : (ensureSession env st).result = .ok s) :
    (ensureSession env st).state.currentSession = some s := by
  cases hcur : st.currentSession with
  | none =>
      cases hc : env.createResult chatCreateOpts with
      | error e => simp [ensureSession, hcur, hc] at h
      | ok s0 =>
          simp only [ensureSession, hcur, hc] at h ⊢
          exact checkQuota_ok_state env s0 s h
  | some s0 =>
      simp only [ensureSession, hcur] at h ⊢
      exact checkQuota_ok_state env s0 s h

/-- When a session holds a session, `destroySession` destroys exactly it. -/
theorem destroySession_of_some (st : ChatState) (s : Session)
    (h : st.currentSession = some s) :
    destroySession st = ({ currentSession := none }, [Event.destroyed s]) := by
  unfold destroySession
  rw [h]

/-- Concrete evaluation: `sessOk` sits at 1% of its quota. -/
theorem usagePercent_sessOk : usagePercent sessOk = 1 := by
  simp [usagePercent, sessOk]
  norm_num

/-- Concrete evaluation: `cexSession` sits at exactly 90% of its quota. -/
theorem usagePercent_cexSession : usagePercent cexSession = 90 := by
  simp [usagePercent, cexSession]

/-! The claim theorems. -/

/-- C1: before each generation use, `ensureSession` checks the current
session's consumed-input-quota over total-quota ratio; when it is at
least 0.90 it replaces the current session with a clone of the old
session, destroys the old one, and returns the clone for use. -/
theorem ensureSession_refreshes_at_ninety_percent
    (env : Env) (st : ChatState) (s s2 : Session)
    (hcur : st.currentSession = some s)
    (hratio : (9 : ℚ) / 10 ≤ (s.inputUsage : ℚ) / (s.inputQuota : ℚ))
    (hclone : env.cloneResult s = .ok s2) :
    ensureSession env st =
      { state := { currentSession := some s2 }
        events := [Event.cloned s s2, Event.destroyed s]
        result := .ok s2 } := by
  have h90 : 90 ≤ usagePercent s := (le_usagePercent_iff s).mpr hratio
  simp [ensureSession, hcur, checkQuota, h90, hclone]

theorem ensureSession_refreshes_at_ninety_percent_witness :
    (9 : ℚ) / 10 ≤ (cexSession.inputUsage : ℚ) / (cexSession.inputQuota : ℚ) ∧
    ensureSession cexEnv { currentSession := some cexSession } =
      { state := { currentSession := some cexClone }
        events := [Event.cloned cexSession cexClone, Event.destroyed cexSession]
        result := .ok cexClone } :=
  ⟨by norm_num [cexSession],
   ensureSession_refreshes_at_ninety_percent cexEnv _ cexSession cexClone rfl
     (by norm_num [cexSession]) rfl⟩

/-- C2: `ensureSession` creates a session lazily: with no current
session it invokes `LanguageModel.create` exactly once, passing the
fixed system prompt and the fixed decoding parameters (temperature 0.8,
topK 3); with a session present it never invokes `create`. -/
theorem ensureSession_lazy_create (env : Env) (st : ChatState) :
    (st.currentSession = none →
       countCreateRequested (ensureSession env st).events = 1 ∧
       (ensureSession env st).events.head? = some (Event.createRequested chatCreateOpts)) ∧
    (∀ s, st.currentSession = some s →
       countCreateRequested (ensureSession env st).events = 0) ∧
    chatCreateOpts.temperature = 0.8 ∧ chatCreateOpts.topK = 3 ∧
    chatCreateOpts.systemPrompt = chatSystemPrompt := by
  refine ⟨?_, ?_, rfl, rfl, rfl⟩
  · intro h
    cases hc : env.createResult chatCreateOpts with
    | error e =>
        simp [ensureSession, h, hc, countCreateRequested, Event.isCreateRequested]
    | ok s =>
        have hq := countCreateRequested_checkQuota env s
        constructor
        · simp only [ensureSession, h, hc, countCreateRequested, List.countP_cons] at hq ⊢
          simp [Event.isCreateRequested, hq]
        · simp [ensureSession, h, hc]
  · intro s h
    have hq := countCreateRequested_checkQuota env s
    simpa [ensureSession, h] using hq

theorem ensureSession_lazy_create_witness :
    countCreateRequested (ensureSession envOk { currentSession := none }).events = 1 ∧
    countCreateRequested (ensureSession envOk { currentSession := some sessOk }).events = 0 :=
  ⟨((ensureSession_lazy_create envOk { currentSession := none }).1 rfl).1,
   (ensureSession_lazy_create envOk { currentSession := some sessOk }).2.1 sessOk rfl⟩

/-- C3: when the prompt step of `getChromeAiResponse` fails, the service
destroys the stored session, leaves no current session, and re-throws
the very same error, so the next call recreates a session. -/
theorem getChromeAiResponse_error_discards_session
    (env : Env) (st : ChatState) (msg : String) (s : Session) (e : String)
    (hav : env.available = true)
    (hens : (ensureSession env st).result = .ok s)
    (hp : env.promptResult s msg = .error e) :
    (getChromeAiResponse env st msg).result = .error e ∧
    (getChromeAiResponse env st msg).state.currentSession = none ∧
    Event.destroyed s ∈ (getChromeAiResponse env st msg).events := by
  have hstate := ensureSession_ok_state env st s hens
  have hdes := destroySession_of_some (ensureSession env st).state s hstate
  simp [getChromeAiResponse, hav, hens, hp, hdes]

theorem getChromeAiResponse_error_discards_session_witness :
    (getChromeAiResponse envPromptFail { currentSession := none } "hola").result
        = .error "prompt exploded" ∧
    (getChromeAiResponse envPromptFail { currentSession := none } "hola").state.currentSession
        = none ∧
    Event.destroyed sessOk
        ∈ (getChromeAiResponse envPromptFail { currentSession := none } "hola").events :=
  getChromeAiResponse_error_discards_session envPromptFail { currentSession := none }
    "hola" sessOk "prompt exploded" rfl
    (by simp [ensureSession, envPromptFail, checkQuota, usagePercent_sessOk]) rfl

/-- C4: `destroySession` is an explicit teardown: after it runs no
session is held, and when a session was held its `destroy()` is invoked
exactly once. -/
theorem destroySession_teardown (st : ChatState) :
    (destroySession st).1.currentSession = none ∧
    (∀ s, st.currentSession = some s →
        (destroySession st).2.count (Event.destroyed s) = 1 ∧
        (destroySession st).2 = [Event.destroyed s]) ∧
    (st.currentSession = none → (destroySession st).2 = []) := by
  cases h : st.currentSession with
  | none => simp [destroySession, h]
  | some s0 => simp [destroySession, h]

theorem destroySession_teardown_witness :
    (destroySession { currentSession := some sessOk }).1.currentSession = none ∧
    (destroySession { currentSession := some sessOk }).2.count (Event.destroyed sessOk) = 1 :=
  ⟨(destroySession_teardown { currentSession := some sessOk }).1,
   ((destroySession_teardown { currentSession := some sessOk }).2.1 sessOk rfl).1⟩

/-- C5 counterexample: with the session at 90 of 100 tokens — strictly
below the quota maximum — `ensureSession` nevertheless replaces it
(clone stored, old session destroyed), refuting that replacement happens
only when accumulated input tokens have reached the quota maximum. -/
theorem ensureSession_replaces_below_quota_cex :
    cexSession.inputUsage < cexSession.inputQuota ∧
    (ensureSession cexEnv { currentSession := some cexSession }).state.currentSession
        = some cexClone ∧
    cexClone ≠ cexSession ∧
    Event.destroyed cexSession
        ∈ (ensureSession cexEnv { currentSession := some cexSession }).events := by
  refine ⟨by norm_num [cexSession], ?_, by decide, ?_⟩ <;>
    simp [ensureSession, checkQuota, usagePercent_cexSession, cexEnv]

/-- C5 amended: a session may accumulate input tokens up to 90% of its
quota before it must be refreshed: `ensureSession` discards an existing
session only when its consumed ratio has reached at least 0.90 of the
quota. -/
theorem ensureSession_refresh_only_at_ninety
    (env : Env) (st : ChatState) (s : Session)
    (hcur : st.currentSession = some s)
    (hdes : Event.destroyed s ∈ (ensureSession env st).events) :
    (9 : ℚ) / 10 ≤ (s.inputUsage : ℚ) / (s.inputQuota : ℚ) := by
  by_cases h : 90 ≤ usagePercent s
  · exact (le_usagePercent_iff s).mp h
  · exfalso
    cases hc : env.cloneResult s with
    | error e => simp [ensureSession, hcur, checkQuota, h, hc] at hdes
    | ok s2 => simp [ensureSession, hcur, checkQuota, h, hc] at hdes

theorem ensureSession_refresh_only_at_ninety_witness :
    (9 : ℚ) / 10 ≤ (cexSession.inputUsage : ℚ) / (cexSession.inputQuota : ℚ) :=
  ensureSession_refresh_only_at_ninety cexEnv { currentSession := some cexSession }
    cexSession rfl
    (by simp [ensureSession, checkQuota, usagePercent_cexSession, cexEnv])

/-- C6: warm-up creates the session ahead of the first message: a
successful warm-up leaves a session stored, a later `ensureSession` on
that state invokes no `LanguageModel.create`, and whenever the component
can send a user message after `ngOnInit`, that `ngOnInit` run invoked
`warmupSession`. -/
theorem warmup_before_first_message
    (env : Env) (st : ChatState) (s : Session)
    (c : CompState) (inp : String) (b : Bool)
    (hok : (ensureSession env st).result = .ok s)
    (hsend : canSendMessage (ngOnInit env c).1 inp b = true) :
    (warmupSession env st).state.currentSession = some s ∧
    countCreateRequested (ensureSession env (warmupSession env st).state).events = 0 ∧
    SvcCall.warmup ∈ (ngOnInit env c).2 := by
  have h1 : (warmupSession env st).state.currentSession = some s := by
    simpa [warmupSession] using ensureSession_ok_state env st s hok
  have havail : ((ngOnInit env c).1).chromeAiAvailable = true := by
    simp [canSendMessage, Bool.and_eq_true] at hsend
    exact hsend.2
  refine ⟨h1, ?_, ?_⟩
  · have hq := countCreateRequested_checkQuota env s
    simpa [ensureSession, h1] using hq
  · cases hb : env.available with
    | true =>
        cases ha : (checkChromeAiAvailability env).available with
        | true => simp [ngOnInit, hb, ha]
        | false =>
            cases hd : (checkChromeAiAvailability env).canDownload with
            | true => simp [ngOnInit, hb, ha, hd] at havail
            | false => simp [ngOnInit, hb, ha, hd] at havail
    | false => simp [ngOnInit, hb] at havail

theorem warmup_before_first_message_witness :
    (warmupSession envOk { currentSession := none }).state.currentSession = some sessOk ∧
    countCreateRequested
        (ensureSession envOk (warmupSession envOk { currentSession := none }).state).events
        = 0 ∧
    SvcCall.warmup ∈ (ngOnInit envOk compInit).2 :=
  warmup_before_first_message envOk { currentSession := none } sessOk compInit "hola" false
    (by simp [ensureSession, envOk, checkQuota, usagePercent_sessOk])
    (by decide)

/-- C7: when a session exists and its consumed ratio is below 0.90,
`ensureSession` returns that very session and changes nothing: no
create, clone or destroy call is made and the state is untouched. -/
theorem ensureSession_reuses_below_ninety
    (env : Env) (st : ChatState) (s : Session)
    (hcur : st.currentSession = some s)
    (_hq : 0 < s.inputQuota)
    (hratio : (s.inputUsage : ℚ) / (s.inputQuota : ℚ) < 9 / 10) :
    ensureSession env st =
      { state := { currentSession := some s }, events := [], result := .ok s } := by
  have h : ¬ 90 ≤ usagePercent s := by
    rw [le_usagePercent_iff]
    exact not_le.mpr hratio
  simp [ensureSession, hcur, checkQuota, h]

theorem ensureSession_reuses_below_ninety_witness :
    ensureSession envOk { currentSession := some sessOk } =
      { state := { currentSession := some sessOk }, events := [], result := .ok sessOk } :=
  ensureSession_reuses_below_ninety envOk { currentSession := some sessOk } sessOk rfl
    (by norm_num [sessOk]) (by norm_num [sessOk])

/-- C8: on success `getChromeAiResponse` returns exactly the string the
session's `prompt(userMessage)` call produced, unmodified, after
sending the user message to that session. -/
theorem getChromeAiResponse_returns_prompt_output
    (env : Env) (st : ChatState) (msg resp : String) (s : Session)
    (hav : env.available = true)
    (hens : (ensureSession env st).result = .ok s)
    (hp : env.promptResult s msg = .ok resp) :
    (getChromeAiResponse env st msg).result = .ok resp ∧
    Event.prompted s msg ∈ (getChromeAiResponse env st msg).events := by
  simp [getChromeAiResponse, hav, hens, hp]

theorem getChromeAiResponse_returns_prompt_output_witness :
    (getChromeAiResponse envOk { currentSession := none } "hola").result = .ok "eco hola" ∧
    Event.prompted sessOk "hola"
        ∈ (getChromeAiResponse envOk { currentSession := none } "hola").events :=
  getChromeAiResponse_returns_prompt_output envOk { currentSession := none }
    "hola" "eco hola" sessOk rfl
    (by simp [ensureSession, envOk, checkQuota, usagePercent_sessOk]) rfl

/-- C9: `destroySession` is idempotent: with no session it is a no-op,
running it twice leaves the same state as running it once with the
second run making no calls, and one run invokes `destroy()` at most
once. -/
theorem destroySession_idempotent (st : ChatState) :
    destroySession { currentSession := none } = ({ currentSession := none }, []) ∧
    destroySession (destroySession st).1 = ((destroySession st).1, []) ∧
    (destroySession st).2.length ≤ 1 := by
  refine ⟨rfl, ?_, ?_⟩ <;> cases h : st.currentSession <;> simp [destroySession, h]

/-- C10: `warmupSession` never propagates an error, and when session
creation fails during warm-up the service is left holding no current
session. -/
theorem warmupSession_never_throws
    (env : Env) (st : ChatState) (e : String) :
    (warmupSession env st).result = .ok () ∧
    (st.currentSession = none → env.createResult chatCreateOpts = .error e →
      (warmupSession env st).state.currentSession = none) := by
  refine ⟨rfl, ?_⟩
  intro h hc
  simp [warmupSession, ensureSession, h, hc]

theorem warmupSession_never_throws_witness :
    (warmupSession envCreateFail { currentSession := none }).result = .ok () ∧
    (warmupSession envCreateFail { currentSession := none }).state.currentSession = none :=
  ⟨(warmupSession_never_throws envCreateFail { currentSession := none } "create failed").1,
   (warmupSession_never_throws envCreateFail { currentSession := none } "create failed").2
     rfl rfl⟩

end NotarIA
